import Mathlib

/-!
Verification of the configuration-reader subsystem of fail2ban
(`fail2ban/client/configreader.py`) against its design specification.

The embedding below translates the Python source into Lean:

* `ConfigReaderUnshared` (structure + `read` + `getOptions`) embeds the class
  of the same name: candidate-file discovery under a base directory, ordered
  merge, and typed option extraction with its per-case defaulting policy.
* `ConfigReader` embeds the caching facade: a facade either owns a private
  store or lazily binds a store registered in a shared table; heap-allocated
  stores are modelled by a `SharedState` mapping numeric ids to stores, so
  that two facades bound to the same id share one mutable store, as the
  Python objects do.
* `DefinitionInitConfigReader` embeds the two-section (Definition/Init)
  reader.  Its Python `getOptions` stores its results in attributes and
  falls off the end of the body, so the embedded function returns the new
  state together with the Python return value (`none`, i.e. Python `None`).
* The underlying text-format parser (`SafeConfigParserWithIncludes`,
  `ConfigParser`) is an external collaborator whose file is not part of the
  sources under verification; the definitions marked "Modelled from the
  spec" translate the behaviour the specification assigns to that boundary.

Python's filesystem is modelled by `FS`: the set of existing files and
directories, per-file readability, and per-file parsed content (an ordered
list of (section, option, value) settings).  Each embedded operation takes
the `FS` it runs against as an explicit argument.
-/

/-- Lexicographic comparison of two character lists by code point.  This is
the order Python's `sorted` applies to the path strings produced by
`glob.glob`. -/
def strLeAux : List Char → List Char → Bool
  | [], _ => true
  | _ :: _, [] => false
  | a :: as, b :: bs =>
    if a.toNat < b.toNat then true
    else if b.toNat < a.toNat then false
    else strLeAux as bs

/-- Lexicographic comparison of strings, used for sorting drop-in files. -/
def strLe (a b : String) : Bool := strLeAux a.data b.data

/-- The lexicographic order on strings as a proposition. -/
def strLeP (a b : String) : Prop := strLe a b = true

instance : DecidableRel strLeP := fun a b => instDecidableEqBool (strLe a b) true

/-- Totality of the lexicographic comparison (proof term used by the
`IsTotal` instance below). -/
def strLeAuxTotal (x y : List Char) : strLeAux x y = true ∨ strLeAux y x = true := by
  induction x generalizing y with
  | nil => left; rfl
  | cons c cs ih =>
    cases y with
    | nil => right; rfl
    | cons d ds =>
      rcases Nat.lt_trichotomy c.toNat d.toNat with h | h | h
      · left; simp [strLeAux, h]
      · rcases ih ds with h2 | h2
        · left; simp [strLeAux, h, h2]
        · right; simp [strLeAux, h, h2]
      · right; simp [strLeAux, h, Nat.lt_asymm h]

/-- Transitivity of the lexicographic comparison (proof term used by the
`IsTrans` instance below). -/
def strLeAuxTrans : ∀ (x y z : List Char),
    strLeAux x y = true → strLeAux y z = true → strLeAux x z = true
  | [], _, _, _, _ => rfl
  | _ :: _, [], _, hab, _ => by simp [strLeAux] at hab
  | _ :: _, _ :: _, [], _, hbc => by simp [strLeAux] at hbc
  | p :: ps, q :: qs, r :: rs, hab, hbc => by
    simp only [strLeAux] at hab hbc ⊢
    rcases Nat.lt_trichotomy p.toNat q.toNat with h1 | h1 | h1
    · rcases Nat.lt_trichotomy q.toNat r.toNat with h2 | h2 | h2
      · simp [Nat.lt_trans h1 h2]
      · simp [h2 ▸ h1]
      · rw [if_neg (Nat.lt_asymm h2), if_pos h2] at hbc
        exact absurd hbc (by simp)
    · rw [if_neg (by omega : ¬ p.toNat < q.toNat),
          if_neg (by omega : ¬ q.toNat < p.toNat)] at hab
      rcases Nat.lt_trichotomy q.toNat r.toNat with h2 | h2 | h2
      · simp [show p.toNat < r.toNat by omega]
      · rw [if_neg (by omega : ¬ q.toNat < r.toNat),
            if_neg (by omega : ¬ r.toNat < q.toNat)] at hbc
        rw [if_neg (by omega : ¬ p.toNat < r.toNat),
            if_neg (by omega : ¬ r.toNat < p.toNat)]
        exact strLeAuxTrans ps qs rs hab hbc
      · rw [if_neg (Nat.lt_asymm h2), if_pos h2] at hbc
        exact absurd hbc (by simp)
    · rw [if_neg (Nat.lt_asymm h1), if_pos h1] at hab
      exact absurd hab (by simp)

instance : IsTotal String strLeP := ⟨fun a b => strLeAuxTotal a.data b.data⟩

instance : IsTrans String strLeP := ⟨fun a b c => strLeAuxTrans a.data b.data c.data⟩

/-- Python's `sorted` on a list of strings (total, deterministic, and
agreeing with any stable sort because `strLeP` is antisymmetric). -/
def sortStr (l : List String) : List String := l.insertionSort strLeP

/-- Boolean test that one character list is a prefix of another. -/
def prefixOfB : List Char → List Char → Bool
  | [], _ => true
  | _ :: _, [] => false
  | a :: as, b :: bs => a == b && prefixOfB as bs

/-- Boolean test that one character list is a suffix of another. -/
def suffixOfB (a b : List Char) : Bool := prefixOfB a.reverse b.reverse

/-- Python `basedir.rstrip('/')`: remove trailing slashes. -/
def rstripSlash (s : String) : String :=
  String.mk ((s.data.reverse.dropWhile (fun c => c == '/')).reverse)

/-- The filesystem a read runs against: existing files, existing
directories, which files are readable/parseable, and the parsed content of
each file as an ordered list of (section, option, value) settings. -/
structure FS where
  files : List String
  dirs : List String
  readable : String → Bool
  content : String → List (String × String × String)

/-- Python `os.path.exists`: true for existing files and directories. -/
def FS.pathExists (fs : FS) (p : String) : Bool :=
  fs.files.contains p || fs.dirs.contains p

/-- Whether path `p` matches the glob pattern `dir/*.ext`: a direct child of
`dir`, not starting with a dot (glob hides dotfiles), ending in `.ext`. -/
def globMatch (dir ext p : String) : Bool :=
  let d := (dir ++ "/").data
  prefixOfB d p.data &&
    (let base := p.data.drop d.length
     !base.isEmpty && !base.any (fun c => c == '/') &&
       !prefixOfB ['.'] base && suffixOfB ("." ++ ext).data base)

/-- Python `glob.glob('%s/*.%s' % (dir, ext))`: every existing entry
matching the pattern (in unspecified order; the caller sorts). -/
def globFiles (fs : FS) (dir ext : String) : List String :=
  (fs.files ++ fs.dirs).filter (globMatch dir ext)

/-- The merged parser state: the accumulated (section, option, value)
writes, in the order they were performed.  A later write to the same
(section, option) shadows an earlier one. -/
abbrev MergedState := List (String × String × String)

/-- Modelled from the spec: `get(section, option)` of the merged state of
the external parser (`SafeConfigParserWithIncludes`, not under the verified
sources) returns the raw string for the option, with last-write-wins across
the merged files. -/
def mget (st : MergedState) (sec opt : String) : Option String :=
  ((st.filter (fun e => e.1 == sec && e.2.1 == opt)).getLast?).map (fun e => e.2.2)

/-- Modelled from the spec: `has_section` of the external parser. -/
def hasSection (st : MergedState) (sec : String) : Bool :=
  st.any (fun e => e.1 == sec)

/-- First-occurrence deduplication keeping relative order. -/
def dedupKeep (seen : List String) : List String → List String
  | [] => []
  | a :: as => if seen.contains a then dedupKeep seen as else a :: dedupKeep (a :: seen) as

/-- Modelled from the spec: `options(section)` of the external parser:
the names of the options present in the section. -/
def optionsOf (st : MergedState) (sec : String) : List String :=
  dedupKeep [] ((st.filter (fun e => e.1 == sec)).map (fun e => e.2.1))

/-- Raw `get` with a default, used where the caller has already checked the
option is present. -/
def getStrD (st : MergedState) (sec opt : String) : String :=
  (mget st sec opt).getD ""

/-- Modelled from the spec: `SafeConfigParserWithIncludes.read` (the
external parser, not under the verified sources) parses the given files in
order, merges them with last-write-wins per option, and returns which files
were successfully read; unreadable files contribute nothing. -/
def parseFiles (fs : FS) (st : MergedState) (paths : List String) :
    MergedState × List String :=
  paths.foldl
    (fun acc p => if fs.readable p then (acc.1 ++ fs.content p, acc.2 ++ [p]) else acc)
    (st, [])

/-- Outcome of a raw parser `get`: the exceptions the Python code catches
(`NoSectionError`, `NoOptionError`) plus a failed type coercion
(`ValueError`). -/
inductive GetErr
  | noSection
  | noOption
  | valueErr
deriving DecidableEq

/-- A resolved option value: the Python values a `getOptions` entry can
hold (a parsed bool, a parsed int, a raw string, or Python `None`). -/
inductive OptValue
  | vbool (b : Bool)
  | vint (n : Int)
  | vstr (s : String)
  | vnone
deriving DecidableEq

/-- One entry of the option list fed to `getOptions`: the type tag, the
option name and the default value (Python `[0]`, `[1]`, `[2]`). -/
structure OptionSpec where
  type : String
  name : String
  dflt : OptValue
deriving DecidableEq

/-- The log calls the embedded code performs, with the data each message
names. -/
inductive LogEvent
  | errorCouldNotRead (missed : List String)
  | errorNoAccessible (filename : String)
  | errorNoSection (sec : String)
  | warnUsingDefault (opt sec : String) (dflt : OptValue)
  | logNonEssential (opt sec : String)
  | warnWrongValue (opt sec : String) (dflt : OptValue)
deriving DecidableEq

/-- The `_logLevel` constant of the module (value 6). -/
def logLevelConst : Nat := 6

/-- Digit-string to number, failing on empty input or a non-digit. -/
def digitsVal (l : List Char) : Option Nat :=
  if l.isEmpty || l.any (fun c => !(48 ≤ c.toNat && c.toNat ≤ 57)) then none
  else some (l.foldl (fun acc c => acc * 10 + (c.toNat - 48)) 0)

/-- Modelled from the spec: the `getint` coercion of the external parser
(`ConfigParser`, not under the verified sources) — integer parse of the raw
string, failing with `ValueError` on non-numeric input. -/
def coerceInt (s : String) : Option Int :=
  match s.data with
  | [] => none
  | c :: cs =>
    if c == '-' then (digitsVal cs).map (fun n => -(n : Int))
    else if c == '+' then (digitsVal cs).map (fun n => (n : Int))
    else (digitsVal (c :: cs)).map (fun n => (n : Int))

/-- Modelled from the spec: the `getboolean` coercion of the external
parser — the accepted truthy/falsy literal forms of the underlying format
("1"/"yes"/"true"/"on" and "0"/"no"/"false"/"off"), failing with
`ValueError` on anything else. -/
def coerceBool (s : String) : Option Bool :=
  if ["1", "yes", "true", "on"].contains s then some true
  else if ["0", "no", "false", "off"].contains s then some false
  else none

/-- Modelled from the spec: raw `get` of the external parser —
`NoSectionError` when the section is absent, `NoOptionError` when the
section exists but the option is absent, the raw string otherwise. -/
def rawGet (st : MergedState) (sec opt : String) : Except GetErr String :=
  if hasSection st sec then
    match mget st sec opt with
    | some v => Except.ok v
    | none => Except.error GetErr.noOption
  else Except.error GetErr.noSection

/-- The typed fetch performed by the body of the `try` block of
`getOptions`: dispatch on the type tag ("bool" → `getboolean`,
"int" → `getint`, anything else → raw `get`). -/
def tryGetTyped (st : MergedState) (sec : String) (o : OptionSpec) :
    Except GetErr OptValue :=
  if o.type == "bool" then
    match rawGet st sec o.name with
    | Except.error e => Except.error e
    | Except.ok v =>
      match coerceBool v with
      | some b => Except.ok (OptValue.vbool b)
      | none => Except.error GetErr.valueErr
  else if o.type == "int" then
    match rawGet st sec o.name with
    | Except.error e => Except.error e
    | Except.ok v =>
      match coerceInt v with
      | some n => Except.ok (OptValue.vint n)
      | none => Except.error GetErr.valueErr
  else (rawGet st sec o.name).map OptValue.vstr

/-- Python dict assignment `d[k] = v`: replace the binding if the key is
present (keys are unique by construction), append otherwise. -/
def insertKV {α : Type} (d : List (String × α)) (k : String) (v : α) :
    List (String × α) :=
  match d with
  | [] => [(k, v)]
  | kv :: rest => if kv.1 == k then (k, v) :: rest else kv :: insertKV rest k v

/-- Python dict lookup `d.get(k)`. -/
def lookupKV {α : Type} (d : List (String × α)) (k : String) : Option α :=
  match d with
  | [] => none
  | kv :: rest => if kv.1 == k then some kv.2 else lookupKV rest k

/-- The state of a `ConfigReaderUnshared` instance: its base directory, its
`read_cfg_files` result cache, and the merged parser state it inherits from
`SafeConfigParserWithIncludes`. -/
structure ConfigReaderUnshared where
  basedir : String
  read_cfg_files : List (String × Bool)
  merged : MergedState
deriving DecidableEq

/-- The stock system location `DEFAULT_BASEDIR`. -/
def ConfigReaderUnshared.DEFAULT_BASEDIR : String := "/etc/fail2ban"

/-- `setBaseDir`: substitute the default when no directory is given, then
strip trailing slashes. -/
def ConfigReaderUnshared.setBaseDir (self : ConfigReaderUnshared)
    (basedir : Option String) : ConfigReaderUnshared :=
  { self with basedir := rstripSlash (basedir.getD ConfigReaderUnshared.DEFAULT_BASEDIR) }

/-- The constructor `ConfigReaderUnshared(basedir=...)`: empty result cache,
empty parser state, base directory via `setBaseDir`. -/
def ConfigReaderUnshared.init (basedir : Option String) : ConfigReaderUnshared :=
  ConfigReaderUnshared.setBaseDir
    { basedir := "", read_cfg_files := [], merged := [] } basedir

/-- The full candidate list built by `read`: `basename.conf`, the sorted
`*.conf` drop-ins of `basename.d`, `basename.local`, the sorted `*.local`
drop-ins of `basename.d` — before filtering for existence. -/
def ConfigReaderUnshared.fullCandidates (fs : FS) (basedir filename : String) :
    List String :=
  let basename := basedir ++ "/" ++ filename
  let config_dir := basename ++ ".d"
  [basename ++ ".conf"] ++ sortStr (globFiles fs config_dir "conf")
    ++ [basename ++ ".local"] ++ sortStr (globFiles fs config_dir "local")

/-- The candidate list after `filter(os.path.exists, config_files)`: only
existing paths are kept, in their original relative order. -/
def ConfigReaderUnshared.candidates (fs : FS) (basedir filename : String) :
    List String :=
  (ConfigReaderUnshared.fullCandidates fs basedir filename).filter fs.pathExists

/-- The body of `ConfigReaderUnshared.read` after the base-directory check:
discover candidates, parse the existing ones in order, log unreadable
files, and report success exactly when at least one file was read. -/
def ConfigReaderUnshared.readBody (fs : FS) (self : ConfigReaderUnshared)
    (filename : String) : ConfigReaderUnshared × Bool × List LogEvent :=
  let config_files := ConfigReaderUnshared.candidates fs self.basedir filename
  if config_files.isEmpty then
    (self, false, [LogEvent.errorNoAccessible filename])
  else
    let res := parseFiles fs self.merged config_files
    let missed := config_files.filter (fun cf => !res.2.contains cf)
    let logs1 :=
      if missed.isEmpty then ([] : List LogEvent)
      else [LogEvent.errorCouldNotRead missed]
    if res.2.isEmpty then
      ({ self with merged := res.1 }, false,
        logs1 ++ [LogEvent.errorNoAccessible filename])
    else ({ self with merged := res.1 }, true, logs1)

/-- `ConfigReaderUnshared.read(filename)`: raise `ValueError` when the base
directory does not exist, otherwise run discovery and merge. -/
def ConfigReaderUnshared.read (fs : FS) (self : ConfigReaderUnshared)
    (filename : String) :
    Except String (ConfigReaderUnshared × Bool × List LogEvent) :=
  if fs.pathExists self.basedir then
    Except.ok (ConfigReaderUnshared.readBody fs self filename)
  else
    Except.error ("Base configuration directory " ++ self.basedir
      ++ " does not exist ")

/-- One iteration of the `for option in options` loop of
`ConfigReaderUnshared.getOptions`: fetch and coerce inside a `try`; the
`pOptions` exclusion check sits after the fetch, so it is reached only when
the fetch succeeds; the three `except` arms write the default into the
result (the `NoOptionError` arm only for a non-`None` default). -/
def getOptionsStep (st : MergedState) (effLevel : Nat) (sec : String)
    (pOptions : Option (List String))
    (acc : List (String × OptValue) × List LogEvent) (o : OptionSpec) :
    List (String × OptValue) × List LogEvent :=
  match tryGetTyped st sec o with
  | Except.ok v =>
    if pOptions.isSome && (pOptions.getD []).contains o.name then acc
    else (insertKV acc.1 o.name v, acc.2)
  | Except.error GetErr.noSection =>
    (insertKV acc.1 o.name o.dflt, acc.2 ++ [LogEvent.errorNoSection sec])
  | Except.error GetErr.noOption =>
    if o.dflt ≠ OptValue.vnone then
      (insertKV acc.1 o.name o.dflt,
        acc.2 ++ [LogEvent.warnUsingDefault o.name sec o.dflt])
    else if effLevel ≤ logLevelConst then
      (acc.1, acc.2 ++ [LogEvent.logNonEssential o.name sec])
    else acc
  | Except.error GetErr.valueErr =>
    (insertKV acc.1 o.name o.dflt,
      acc.2 ++ [LogEvent.warnWrongValue o.name sec o.dflt])

/-- `ConfigReaderUnshared.getOptions(sec, options, pOptions)`: run the loop
body over the option specs, starting from an empty result dict. -/
def ConfigReaderUnshared.getOptions (self : ConfigReaderUnshared)
    (effLevel : Nat) (sec : String) (options : List OptionSpec)
    (pOptions : Option (List String)) :
    List (String × OptValue) × List LogEvent :=
  options.foldl (getOptionsStep self.merged effLevel sec pOptions) ([], [])

/-- The heap of `ConfigReaderUnshared` objects reachable through a shared
config table: Python object identity is modelled by numeric store ids, the
shared dict `share_config` by `table`, and `nextId` delivers fresh ids. -/
structure SharedState where
  stores : List (Nat × ConfigReaderUnshared)
  table : List (String × Nat)
  nextId : Nat
deriving DecidableEq

/-- An empty share group: no stores, empty shared table. -/
def SharedState.base : SharedState :=
  { stores := [], table := [], nextId := 0 }

/-- Dereference a store id. -/
def SharedState.findStore (σ : SharedState) (i : Nat) :
    Option ConfigReaderUnshared :=
  (σ.stores.find? (fun p => p.1 == i)).map (fun p => p.2)

/-- Overwrite the store bound to an id (an in-place mutation of the Python
object every alias observes). -/
def SharedState.updateStore (σ : SharedState) (i : Nat)
    (st : ConfigReaderUnshared) : SharedState :=
  { σ with stores := σ.stores.map (fun p => if p.1 == i then (i, st) else p) }

/-- The facade `ConfigReader`: constructed either around a private store
(`use_config`/no sharing, already bound) or with a shared table
(`share_config` plus the constructor kwargs), binding its store lazily on
first `read`. -/
inductive ConfigReader
  | priv (storeId : Nat)
  | shared (bound : Option Nat) (kwargsBasedir : Option String)
deriving DecidableEq

/-- The first block of `ConfigReader.read`: when the facade has no bound
store yet and shares a table, look the name up; if absent, construct a new
`ConfigReaderUnshared` from the stored kwargs and register it under the
name.  Returns the possibly-extended heap, the possibly-bound facade, and
the id of the active store. -/
def ConfigReader.resolve (σ : SharedState) (self : ConfigReader)
    (name : String) : SharedState × ConfigReader × Nat :=
  match self with
  | ConfigReader.priv i => (σ, self, i)
  | ConfigReader.shared (some i) _ => (σ, self, i)
  | ConfigReader.shared none bd =>
    match σ.table.find? (fun p => p.1 == name) with
    | some p => (σ, ConfigReader.shared (some p.2) bd, p.2)
    | none =>
      let i := σ.nextId
      let store := ConfigReaderUnshared.init bd
      ({ stores := σ.stores ++ [(i, store)],
         table := σ.table ++ [(name, i)],
         nextId := i + 1 },
       ConfigReader.shared (some i) bd, i)

/-- `ConfigReader.read(name, once)`: resolve the active store, then honor
once-semantics against the store's `read_cfg_files` cache; on a cache miss,
delegate to `ConfigReaderUnshared.read` and record the result only when
`once` is true.  The final `Nat` counts the underlying discovery+parse
calls performed (0 on a cache hit, 1 otherwise); a `ValueError` from the
store propagates. -/
def ConfigReader.read (fs : FS) (σ : SharedState) (self : ConfigReader)
    (name : String) (once : Bool) :
    Except String (SharedState × ConfigReader × Bool × Nat) :=
  let r := ConfigReader.resolve σ self name
  match SharedState.findStore r.1 r.2.2 with
  | none => Except.error "internal: unbound store"
  | some st =>
    match (if once then lookupKV st.read_cfg_files name else none) with
    | some cached => Except.ok (r.1, r.2.1, cached, 0)
    | none =>
      match ConfigReaderUnshared.read fs st name with
      | Except.error e => Except.error e
      | Except.ok res =>
        let st2 :=
          if once then
            { res.1 with read_cfg_files := insertKV res.1.read_cfg_files name res.2.1 }
          else res.1
        Except.ok (SharedState.updateStore r.1 r.2.2 st2, r.2.1, res.2.1, 1)

/-- The state of a `DefinitionInitConfigReader`: its underlying store
(`self._cfg`, here inlined as a private store), the accumulated `_initOpts`
mapping, the `_opts` mapping of the last extraction, and the `_file` and
`_jailName` attributes. -/
structure DefinitionInitConfigReader where
  cfg : ConfigReaderUnshared
  initOpts : List (String × String)
  opts : List (String × OptValue)
  file : String
  jailName : String
deriving DecidableEq

/-- One iteration of the `for opt in self.options("Init")` loop of
`DefinitionInitConfigReader.getOptions`: add the Init-section value for
`opt` only when the key is not already present. -/
def initOptsStep (st : MergedState) (m : List (String × String))
    (opt : String) : List (String × String) :=
  if (lookupKV m opt).isSome then m
  else insertKV m opt (getStrD st "Init" opt)

/-- `DefinitionInitConfigReader.getOptions(pOpts)`: extract the
"Definition" section against the entity kind's `_configOpts` list with
`pOpts` as the exclusion set, store it in `_opts`; then, if an "Init"
section exists, add each of its options to `_initOpts` unless the key is
already present.  The Python method has no `return` statement, so the
returned value (last component) is `none`, Python's `None`. -/
def DefinitionInitConfigReader.getOptions (configOpts : List OptionSpec)
    (effLevel : Nat) (self : DefinitionInitConfigReader)
    (pOpts : Option (List String)) :
    DefinitionInitConfigReader × List LogEvent
      × Option (List (String × OptValue) × List (String × String)) :=
  let res :=
    ConfigReaderUnshared.getOptions self.cfg effLevel "Definition" configOpts pOpts
  let self1 := { self with opts := res.1 }
  let self2 :=
    if hasSection self1.cfg.merged "Init" then
      { self1 with initOpts :=
          ((optionsOf self1.cfg.merged "Init").foldl
            (initOptsStep self1.cfg.merged) self1.initOpts) }
    else self1
  (self2, res.2, none)

/-- The Python exception raised by the unimplemented extension point. -/
inductive PyError
  | notImplementedError
deriving DecidableEq

/-- `DefinitionInitConfigReader.convert()`: the base class immediately
raises `NotImplementedError`. -/
def DefinitionInitConfigReader.convert : Except PyError Unit :=
  Except.error PyError.notImplementedError

instance {ε α : Type} [DecidableEq ε] [DecidableEq α] : DecidableEq (Except ε α) :=
  fun a b =>
    match a, b with
    | Except.ok x, Except.ok y =>
      if h : x = y then isTrue (by rw [h])
      else isFalse (fun hc => h (Except.ok.inj hc))
    | Except.error x, Except.error y =>
      if h : x = y then isTrue (by rw [h])
      else isFalse (fun hc => h (Except.error.inj hc))
    | Except.ok _, Except.error _ => isFalse (fun hc => Except.noConfusion hc)
    | Except.error _, Except.ok _ => isFalse (fun hc => Except.noConfusion hc)

/-- Example filesystem for the drop-in ordering scenario: base directory
`/etc/f2b`, entity `n`, two drop-ins under `n.d` setting the same option. -/
def exC1fs : FS :=
  { files := ["/etc/f2b/n.d/10-a.conf", "/etc/f2b/n.d/20-b.conf"],
    dirs := ["/etc/f2b", "/etc/f2b/n.d"],
    readable := fun _ => true,
    content := fun p =>
      if p == "/etc/f2b/n.d/10-a.conf" then [("Definition", "opt", "a")]
      else if p == "/etc/f2b/n.d/20-b.conf" then [("Definition", "opt", "b")]
      else [] }

/-- Example filesystem: only the directory `/b` exists, no files at all. -/
def exFSnone : FS :=
  { files := [], dirs := ["/b"], readable := fun _ => true, content := fun _ => [] }

/-- Example filesystem: directory `/b` plus one config file `/b/n.conf`. -/
def exFSone : FS :=
  { files := ["/b/n.conf"], dirs := ["/b"],
    readable := fun _ => true,
    content := fun p => if p == "/b/n.conf" then [("S", "o", "1")] else [] }

/-- Totally empty filesystem (not even the base directory exists). -/
def exFSempty : FS :=
  { files := [], dirs := [], readable := fun _ => true, content := fun _ => [] }

/-- A freshly constructed store over base directory `/b`. -/
def exStoreB : ConfigReaderUnshared := ConfigReaderUnshared.init (some "/b")

/-- A store over `/b` whose result cache already records a successful read
of entity "n". -/
def exStoreCached : ConfigReaderUnshared :=
  { basedir := "/b", read_cfg_files := [("n", true)], merged := [] }

/-- Heap holding one private store (id 0) over `/b`, fresh. -/
def exSig0 : SharedState := { stores := [(0, exStoreB)], table := [], nextId := 1 }

/-- Heap holding one private store (id 0) over `/b`, already cached. -/
def exSigCached : SharedState :=
  { stores := [(0, exStoreCached)], table := [], nextId := 1 }

/-- A store whose merged state has a section "S" where option "maxretry"
holds a non-numeric raw value. -/
def exCfgS : ConfigReaderUnshared :=
  { basedir := "/b", read_cfg_files := [],
    merged := [("S", "maxretry", "abc")] }

/-- A store whose merged state has a "Definition" section in which option
"opt" holds the numeric raw value "5". -/
def exCfgDef : ConfigReaderUnshared :=
  { basedir := "/b", read_cfg_files := [],
    merged := [("Definition", "opt", "5")] }

/-- A Definition/Init reader state: the caller already supplied "X" (value
"v0") in `_initOpts`, while the file's Init section declares both "X" and
"Y". -/
def exDefInit : DefinitionInitConfigReader :=
  { cfg := { basedir := "/b", read_cfg_files := [],
             merged := [("Definition", "a", "1"), ("Init", "X", "v1"),
                        ("Init", "Y", "w")] },
    initOpts := [("X", "v0")],
    opts := [],
    file := "/b/f.conf",
    jailName := "j" }

/-- The `_configOpts` list of an example entity kind. -/
def exCfgOpts : List OptionSpec := [⟨"string", "a", OptValue.vnone⟩]

/-- Example filesystem where both `/b/n.conf` and `/b/n.local` exist but
only `/b/n.conf` is readable. -/
def exFSpartial : FS :=
  { files := ["/b/n.conf", "/b/n.local"], dirs := ["/b"],
    readable := fun p => p == "/b/n.conf",
    content := fun p =>
      if p == "/b/n.conf" then [("S", "o", "1")]
      else [("S", "o", "2")] }

/-! Helper lemmas about sorting, dictionaries and the option-fetch step. -/

theorem sortStr_sorted (l : List String) : (sortStr l).Sorted strLeP :=
  List.sorted_insertionSort strLeP l

theorem sortStr_perm (l : List String) : (sortStr l).Perm l :=
  List.perm_insertionSort strLeP l

theorem lookupKV_insertKV_self {α : Type} (d : List (String × α)) (k : String)
    (v : α) : lookupKV (insertKV d k v) k = some v := by
  induction d with
  | nil => simp [insertKV, lookupKV]
  | cons a d ih =>
    by_cases ha : (a.1 == k) = true
    · simp [insertKV, ha, lookupKV]
    · simp [insertKV, ha, lookupKV, ih]

theorem lookupKV_insertKV_ne {α : Type} (d : List (String × α)) (k n : String)
    (v : α) (h : (k == n) = false) :
    lookupKV (insertKV d k v) n = lookupKV d n := by
  induction d with
  | nil => simp [insertKV, lookupKV, h]
  | cons a d ih =>
    by_cases ha : (a.1 == k) = true
    · have ha2 : a.1 = k := by simpa using ha
      simp [insertKV, ha, lookupKV, h, ha2]
    · simp [insertKV, ha, lookupKV, ih]

theorem tryGetTyped_of_noSection (st : MergedState) (sec : String)
    (o : OptionSpec) (h : hasSection st sec = false) :
    tryGetTyped st sec o = Except.error GetErr.noSection := by
  have hr : rawGet st sec o.name = Except.error GetErr.noSection := by
    unfold rawGet; simp [h]
  unfold tryGetTyped
  rw [hr]
  split
  · rfl
  · split
    · rfl
    · rfl

theorem tryGetTyped_of_noOption (st : MergedState) (sec : String)
    (o : OptionSpec) (hsec : hasSection st sec = true)
    (h : mget st sec o.name = none) :
    tryGetTyped st sec o = Except.error GetErr.noOption := by
  have hr : rawGet st sec o.name = Except.error GetErr.noOption := by
    unfold rawGet; simp [hsec, h]
  unfold tryGetTyped
  rw [hr]
  split
  · rfl
  · split
    · rfl
    · rfl

theorem tryGetTyped_int_wrong (st : MergedState) (sec : String)
    (o : OptionSpec) (raw : String) (ht : o.type = "int")
    (hsec : hasSection st sec = true)
    (hval : mget st sec o.name = some raw) (hc : coerceInt raw = none) :
    tryGetTyped st sec o = Except.error GetErr.valueErr := by
  have hr : rawGet st sec o.name = Except.ok raw := by
    unfold rawGet; simp [hsec, hval]
  unfold tryGetTyped
  rw [ht, hr]
  simp [hc]

theorem getOptionsStep_lookup_other (st : MergedState) (eff : Nat)
    (sec : String) (p : Option (List String))
    (acc : List (String × OptValue) × List LogEvent) (o : OptionSpec)
    (n : String) (h : (o.name == n) = false) :
    lookupKV (getOptionsStep st eff sec p acc o).1 n = lookupKV acc.1 n := by
  cases htry : tryGetTyped st sec o with
  | ok v =>
    simp only [getOptionsStep, htry]
    split
    · rfl
    · exact lookupKV_insertKV_ne acc.1 o.name n v h
  | error e =>
    cases e with
    | noSection =>
      simp only [getOptionsStep, htry]
      exact lookupKV_insertKV_ne acc.1 o.name n o.dflt h
    | noOption =>
      simp only [getOptionsStep, htry]
      split
      · exact lookupKV_insertKV_ne acc.1 o.name n o.dflt h
      · split
        · rfl
        · rfl
    | valueErr =>
      simp only [getOptionsStep, htry]
      exact lookupKV_insertKV_ne acc.1 o.name n o.dflt h

theorem getOptionsStep_excluded (st : MergedState) (eff : Nat) (sec : String)
    (excl : List String) (acc : List (String × OptValue) × List LogEvent)
    (o : OptionSpec) (v : OptValue)
    (hok : tryGetTyped st sec o = Except.ok v)
    (hex : excl.contains o.name = true) :
    getOptionsStep st eff sec (some excl) acc o = acc := by
  unfold getOptionsStep
  rw [hok]
  exact if_pos (by simpa using hex)

theorem getOptions_foldl_excluded (st : MergedState) (eff : Nat) (sec : String)
    (options : List OptionSpec) (excl : List String) (n : String)
    (acc : List (String × OptValue) × List LogEvent)
    (hn : excl.contains n = true)
    (hacc : lookupKV acc.1 n = none)
    (hall : ∀ o ∈ options, o.name = n →
      ∃ v, tryGetTyped st sec o = Except.ok v) :
    lookupKV (options.foldl (getOptionsStep st eff sec (some excl)) acc).1 n
      = none := by
  induction options generalizing acc with
  | nil => simpa using hacc
  | cons o rest ih =>
    rw [List.foldl_cons]
    apply ih
    · by_cases ho : o.name = n
      · obtain ⟨v, hv⟩ := hall o (by simp) ho
        rw [getOptionsStep_excluded st eff sec excl acc o v hv (by rw [ho]; exact hn)]
        exact hacc
      · rw [getOptionsStep_lookup_other st eff sec (some excl) acc o n (by simpa using ho)]
        exact hacc
    · intro o2 h2 hname
      exact hall o2 (by simp [h2]) hname

theorem harvest_lookup (st : MergedState) (l : List String)
    (m : List (String × String)) (X : String) :
    lookupKV (l.foldl (initOptsStep st) m) X
      = match lookupKV m X with
        | some v => some v
        | none => if X ∈ l then some (getStrD st "Init" X) else none := by
  induction l generalizing m with
  | nil => cases h : lookupKV m X <;> simp [h]
  | cons a rest ih =>
    rw [List.foldl_cons, ih]
    by_cases hm : (lookupKV m a).isSome = true
    · rw [show initOptsStep st m a = m from by unfold initOptsStep; rw [if_pos hm]]
      cases hX : lookupKV m X with
      | some v => simp [hX]
      | none =>
        by_cases haX : a = X
        · rw [haX, hX] at hm; simp at hm
        · have hXa : ¬ (X = a) := fun hc => haX hc.symm
          simp [hX, List.mem_cons, hXa]
    · have hm2 : lookupKV m a = none := by
        cases h2 : lookupKV m a
        · rfl
        · rw [h2] at hm; simp at hm
      rw [show initOptsStep st m a = insertKV m a (getStrD st "Init" a) from by
        unfold initOptsStep; rw [hm2]; rfl]
      by_cases haX : a = X
      · subst haX
        rw [lookupKV_insertKV_self, hm2]
        simp
      · rw [lookupKV_insertKV_ne m a X _ (by simpa using haX)]
        cases hX : lookupKV m X with
        | some v => simp [hX]
        | none =>
          have hXa : ¬ (X = a) := fun hc => haX hc.symm
          simp [hX, List.mem_cons, hXa]

theorem harvest_keeps (st : MergedState) (l : List String)
    (m : List (String × String)) (X v : String)
    (h : lookupKV m X = some v) :
    lookupKV (l.foldl (initOptsStep st) m) X = some v := by
  rw [harvest_lookup]
  simp [h]

theorem defInit_getOptions_keeps (configOpts : List OptionSpec) (eff : Nat)
    (st : DefinitionInitConfigReader) (p : Option (List String)) (X v : String)
    (h : lookupKV st.initOpts X = some v) :
    lookupKV
      ((DefinitionInitConfigReader.getOptions configOpts eff st p).1).initOpts X
      = some v := by
  unfold DefinitionInitConfigReader.getOptions
  simp only []
  split
  · exact harvest_keeps _ _ _ _ _ h
  · exact h

/-! Claim theorems. -/

/-- C9: for every name, if the base directory does not exist on disk at
read time, `read` fails fatally with a `ValueError` naming the directory,
before any file discovery or merge is attempted: no result state is
produced, so the caller's merged state is unchanged. -/
theorem C9_basedir_missing (fs : FS) (st : ConfigReaderUnshared) (name : String)
    (h : fs.pathExists st.basedir = false) :
    ConfigReaderUnshared.read fs st name
      = Except.error ("Base configuration directory " ++ st.basedir
          ++ " does not exist ") := by
  unfold ConfigReaderUnshared.read
  simp [h]

/-- Witness for C9 at a concrete input: an empty filesystem and a store
over `/b`. -/
theorem C9_witness :
    exFSempty.pathExists exStoreB.basedir = false
    ∧ ConfigReaderUnshared.read exFSempty exStoreB "x"
        = Except.error ("Base configuration directory " ++ exStoreB.basedir
            ++ " does not exist ") :=
  ⟨by decide, C9_basedir_missing exFSempty exStoreB "x" (by decide)⟩

/-- C10: for every option spec whose section does not exist, `getOptions`
logs an error and places the declared default in the result mapping even
when the default is Python `None` — the result holds an explicit entry for
the option name. -/
theorem C10_missing_section (cfg : ConfigReaderUnshared) (eff : Nat)
    (sec : String) (pOpts : Option (List String)) (o : OptionSpec)
    (hsec : hasSection cfg.merged sec = false) :
    lookupKV (ConfigReaderUnshared.getOptions cfg eff sec [o] pOpts).1 o.name
        = some o.dflt
    ∧ LogEvent.errorNoSection sec
        ∈ (ConfigReaderUnshared.getOptions cfg eff sec [o] pOpts).2 := by
  have ht := tryGetTyped_of_noSection cfg.merged sec o hsec
  unfold ConfigReaderUnshared.getOptions
  rw [List.foldl_cons, List.foldl_nil]
  simp only [getOptionsStep, ht]
  exact ⟨lookupKV_insertKV_self [] o.name o.dflt, by simp⟩

/-- Witness for C10 at a concrete input: no section exists, the default is
`None`, and the result maps "logpath" to an explicit `None` entry. -/
theorem C10_witness :
    hasSection exStoreB.merged "Definition" = false
    ∧ (lookupKV (ConfigReaderUnshared.getOptions exStoreB 6 "Definition"
          [⟨"string", "logpath", OptValue.vnone⟩] none).1 "logpath"
        = some OptValue.vnone
      ∧ LogEvent.errorNoSection "Definition"
          ∈ (ConfigReaderUnshared.getOptions exStoreB 6 "Definition"
              [⟨"string", "logpath", OptValue.vnone⟩] none).2) :=
  ⟨by decide,
    C10_missing_section exStoreB 6 "Definition" none
      ⟨"string", "logpath", OptValue.vnone⟩ (by decide)⟩

/-- C7: once an option has a value in the accumulated `_initOpts` mapping,
no later harvesting of an "Init" section replaces it — harvesting adds only
absent keys, so across any sequence of `getOptions` calls the first-written
value is the one retained. -/
theorem C7_first_write_wins (configOpts : List OptionSpec) (eff : Nat)
    (st : DefinitionInitConfigReader) (calls : List (Option (List String)))
    (X v : String) (h : lookupKV st.initOpts X = some v) :
    lookupKV
      ((calls.foldl
          (fun s p => (DefinitionInitConfigReader.getOptions configOpts eff s p).1)
          st).initOpts) X = some v := by
  induction calls generalizing st with
  | nil => simpa using h
  | cons p rest ih =>
    rw [List.foldl_cons]
    exact ih _ (defInit_getOptions_keeps configOpts eff st p X v h)

/-- Witness for C7 at a concrete input: the caller-supplied value "v0" for
"X" survives two `getOptions` calls even though the Init section declares
its own value "v1" for "X". -/
theorem C7_witness :
    lookupKV exDefInit.initOpts "X" = some "v0"
    ∧ lookupKV
        (([none, some []].foldl
            (fun s p => (DefinitionInitConfigReader.getOptions exCfgOpts 6 s p).1)
            exDefInit).initOpts) "X" = some "v0" :=
  ⟨by decide,
    C7_first_write_wins exCfgOpts 6 exDefInit [none, some []] "X" "v0" (by decide)⟩

/-- C8 counterexample: at a concrete input, the value returned by
`DefinitionInitConfigReader.getOptions` is Python `None` (`none` in the
embedding), not the pair (definitionValues, initOverridesMapping) the claim
asserts — the pair is stored in the reader's state instead. -/
theorem C8_counterexample :
    (DefinitionInitConfigReader.getOptions exCfgOpts 6 exDefInit (some [])).2.2
      ≠ some
        (((DefinitionInitConfigReader.getOptions exCfgOpts 6 exDefInit (some [])).1).opts,
          ((DefinitionInitConfigReader.getOptions exCfgOpts 6 exDefInit (some [])).1).initOpts) := by
  decide

/-- C8 (amended): `getOptions(callerOverrides)` returns nothing (Python
`None`); it stores the typed extraction of the "Definition" section under
the entity kind's fixed option list (with callerOverrides as the exclusion
set) in the reader's `_opts`, and accumulates Init-section overrides in
`_initOpts` (adding only keys not already present); `convert()` fails with
`NotImplementedError`. -/
theorem C8_stores_pair (configOpts : List OptionSpec) (eff : Nat)
    (st : DefinitionInitConfigReader) (pOpts : Option (List String)) :
    (DefinitionInitConfigReader.getOptions configOpts eff st pOpts).2.2 = none
    ∧ ((DefinitionInitConfigReader.getOptions configOpts eff st pOpts).1).opts
        = (ConfigReaderUnshared.getOptions st.cfg eff "Definition" configOpts pOpts).1
    ∧ (∀ X, lookupKV
          ((DefinitionInitConfigReader.getOptions configOpts eff st pOpts).1).initOpts X
        = match lookupKV st.initOpts X with
          | some v => some v
          | none =>
            if hasSection st.cfg.merged "Init" = true
                ∧ X ∈ optionsOf st.cfg.merged "Init" then
              some (getStrD st.cfg.merged "Init" X)
            else none)
    ∧ DefinitionInitConfigReader.convert = Except.error PyError.notImplementedError := by
  refine ⟨rfl, ?_, ?_, rfl⟩
  · unfold DefinitionInitConfigReader.getOptions
    simp only []
    split
    · rfl
    · rfl
  · intro X
    unfold DefinitionInitConfigReader.getOptions
    simp only []
    by_cases hs : hasSection st.cfg.merged "Init" = true
    · rw [if_pos hs, harvest_lookup]
      cases hX : lookupKV st.initOpts X with
      | some v => simp
      | none => simp [hs]
    · rw [if_neg hs]
      cases hX : lookupKV st.initOpts X with
      | some v => simp [hX]
      | none => simp [hX, hs]

/-- C5 counterexample: at a concrete input the claim fails — the section is
missing, the option name "opt" is in the exclusion set, yet `getOptions`
places the default into the result mapping instead of skipping the option.
The exclusion check sits after the fetch inside the `try`, so the
`except NoSectionError` arm never reaches it. -/
theorem C5_counterexample :
    lookupKV (ConfigReaderUnshared.getOptions exStoreB 6 "Definition"
        [⟨"int", "opt", OptValue.vint 3⟩] (some ["opt"])).1 "opt"
      = some (OptValue.vint 3) := by
  decide

/-- C5 (amended): an option whose name is in the exclusion set is skipped
only when its raw value is successfully retrieved and coerced; in the
missing-section path, the missing-option path with a non-null default, and
the failed-coercion path, `getOptions` still places the default into the
result even for an excluded option. -/
theorem C5_excluded_skip (cfg : ConfigReaderUnshared) (eff : Nat)
    (sec : String) (options : List OptionSpec) (excl : List String)
    (n : String) (hn : excl.contains n = true)
    (hall : ∀ o ∈ options, o.name = n →
      ∃ v, tryGetTyped cfg.merged sec o = Except.ok v) :
    lookupKV (ConfigReaderUnshared.getOptions cfg eff sec options (some excl)).1 n
        = none
    ∧ (∀ o e, tryGetTyped cfg.merged sec o = Except.error e →
        e = GetErr.noSection ∨ e = GetErr.valueErr
          ∨ (e = GetErr.noOption ∧ o.dflt ≠ OptValue.vnone) →
        lookupKV
          (ConfigReaderUnshared.getOptions cfg eff sec [o] (some excl)).1 o.name
          = some o.dflt) := by
  constructor
  · unfold ConfigReaderUnshared.getOptions
    exact getOptions_foldl_excluded cfg.merged eff sec options excl n ([], [])
      hn rfl hall
  · intro o e he hcase
    unfold ConfigReaderUnshared.getOptions
    rw [List.foldl_cons, List.foldl_nil]
    rcases hcase with h1 | h1 | ⟨h1, h2⟩
    · subst h1
      simp only [getOptionsStep, he]
      exact lookupKV_insertKV_self [] o.name o.dflt
    · subst h1
      simp only [getOptionsStep, he]
      exact lookupKV_insertKV_self [] o.name o.dflt
    · subst h1
      simp only [getOptionsStep, he]
      rw [if_pos h2]
      exact lookupKV_insertKV_self [] o.name o.dflt

/-- Witness for C5 (amended) at a concrete input: option "opt" is excluded
and its value "5" coerces, so it is absent from the result. -/
theorem C5_witness :
    (["opt"].contains "opt" = true)
    ∧ lookupKV (ConfigReaderUnshared.getOptions exCfgDef 6 "Definition"
        [⟨"int", "opt", OptValue.vint 3⟩] (some ["opt"])).1 "opt" = none :=
  ⟨by decide,
    (C5_excluded_skip exCfgDef 6 "Definition" [⟨"int", "opt", OptValue.vint 3⟩]
      ["opt"] "opt" (by decide)
      (fun o ho hname =>
        ⟨OptValue.vint 5, by
          have ho2 : o = ⟨"int", "opt", OptValue.vint 3⟩ := by simpa using ho
          subst ho2
          rfl⟩)).1⟩

/-- C6: when the section exists: an absent option with a non-null default
yields the default plus a warning naming the option, section and default;
an absent option with a null default is omitted from the result entirely;
a present raw value that fails int coercion yields a warning and the
default. -/
theorem C6_defaulting (cfg : ConfigReaderUnshared) (eff : Nat) (sec : String)
    (pOpts : Option (List String)) (oa ob oc : OptionSpec) (raw : String)
    (hsec : hasSection cfg.merged sec = true)
    (ha1 : mget cfg.merged sec oa.name = none)
    (ha2 : oa.dflt ≠ OptValue.vnone)
    (hb1 : mget cfg.merged sec ob.name = none)
    (hb2 : ob.dflt = OptValue.vnone)
    (hc1 : oc.type = "int")
    (hc2 : mget cfg.merged sec oc.name = some raw)
    (hc3 : coerceInt raw = none) :
    (lookupKV (ConfigReaderUnshared.getOptions cfg eff sec [oa] pOpts).1 oa.name
        = some oa.dflt
      ∧ LogEvent.warnUsingDefault oa.name sec oa.dflt
          ∈ (ConfigReaderUnshared.getOptions cfg eff sec [oa] pOpts).2)
    ∧ lookupKV (ConfigReaderUnshared.getOptions cfg eff sec [ob] pOpts).1 ob.name
        = none
    ∧ (lookupKV (ConfigReaderUnshared.getOptions cfg eff sec [oc] pOpts).1 oc.name
        = some oc.dflt
      ∧ LogEvent.warnWrongValue oc.name sec oc.dflt
          ∈ (ConfigReaderUnshared.getOptions cfg eff sec [oc] pOpts).2) := by
  have hta := tryGetTyped_of_noOption cfg.merged sec oa hsec ha1
  have htb := tryGetTyped_of_noOption cfg.merged sec ob hsec hb1
  have htc := tryGetTyped_int_wrong cfg.merged sec oc raw hc1 hsec hc2 hc3
  refine ⟨⟨?_, ?_⟩, ?_, ?_, ?_⟩
  · unfold ConfigReaderUnshared.getOptions
    rw [List.foldl_cons, List.foldl_nil]
    simp only [getOptionsStep, hta]
    rw [if_pos ha2]
    exact lookupKV_insertKV_self [] oa.name oa.dflt
  · unfold ConfigReaderUnshared.getOptions
    rw [List.foldl_cons, List.foldl_nil]
    simp only [getOptionsStep, hta]
    rw [if_pos ha2]
    simp
  · unfold ConfigReaderUnshared.getOptions
    rw [List.foldl_cons, List.foldl_nil]
    simp only [getOptionsStep, htb]
    rw [if_neg (by simp [hb2])]
    split
    · rfl
    · rfl
  · unfold ConfigReaderUnshared.getOptions
    rw [List.foldl_cons, List.foldl_nil]
    simp only [getOptionsStep, htc]
    exact lookupKV_insertKV_self [] oc.name oc.dflt
  · unfold ConfigReaderUnshared.getOptions
    rw [List.foldl_cons, List.foldl_nil]
    simp only [getOptionsStep, htc]
    simp

/-- Witness for C6 at a concrete input: section "S" exists holding only
`maxretry = "abc"`; the bool spec defaults to `false`, the null-default
string spec is omitted, the int spec with the non-numeric raw value falls
back to 3. -/
theorem C6_witness :
    hasSection exCfgS.merged "S" = true
    ∧ lookupKV (ConfigReaderUnshared.getOptions exCfgS 6 "S"
        [⟨"bool", "enabled", OptValue.vbool false⟩] none).1 "enabled"
        = some (OptValue.vbool false)
    ∧ lookupKV (ConfigReaderUnshared.getOptions exCfgS 6 "S"
        [⟨"string", "logpath", OptValue.vnone⟩] none).1 "logpath" = none
    ∧ lookupKV (ConfigReaderUnshared.getOptions exCfgS 6 "S"
        [⟨"int", "maxretry", OptValue.vint 3⟩] none).1 "maxretry"
        = some (OptValue.vint 3) :=
  have h := C6_defaulting exCfgS 6 "S" none
    ⟨"bool", "enabled", OptValue.vbool false⟩
    ⟨"string", "logpath", OptValue.vnone⟩
    ⟨"int", "maxretry", OptValue.vint 3⟩ "abc"
    (by decide) (by decide) (by decide) (by decide) (by decide) (by decide)
    (by decide) (by decide)
  ⟨by decide, h.1.1, h.2.1, h.2.2.1⟩

/-- C1: `read` builds the candidate list as `B/N.conf`, then the `*.conf`
drop-ins of `B/N.d` sorted lexicographically, then `B/N.local`, then the
`*.local` drop-ins of `B/N.d` sorted lexicographically; only existing
paths are kept, in their relative order (the kept list is the
existence-filter of the full list, hence a sublist of it); and with
`N.d/10-a.conf` setting `opt=a` and `N.d/20-b.conf` setting `opt=b`, the
merged value is `b` (lexicographic last-write-wins). -/
theorem C1_candidate_order (fs : FS) (bd n : String) :
    (ConfigReaderUnshared.candidates fs bd n).Sublist
        (ConfigReaderUnshared.fullCandidates fs bd n)
    ∧ ConfigReaderUnshared.candidates fs bd n
        = (ConfigReaderUnshared.fullCandidates fs bd n).filter fs.pathExists
    ∧ (∃ t2 t4,
        ConfigReaderUnshared.fullCandidates fs bd n
          = (bd ++ "/" ++ n ++ ".conf")
              :: (t2 ++ (bd ++ "/" ++ n ++ ".local") :: t4)
        ∧ t2.Sorted strLeP ∧ t4.Sorted strLeP
        ∧ t2.Perm (globFiles fs (bd ++ "/" ++ n ++ ".d") "conf")
        ∧ t4.Perm (globFiles fs (bd ++ "/" ++ n ++ ".d") "local"))
    ∧ (ConfigReaderUnshared.read exC1fs
          (ConfigReaderUnshared.init (some "/etc/f2b")) "n").map
        (fun res => (res.2.1, mget res.1.merged "Definition" "opt"))
        = Except.ok (true, some "b") := by
  refine ⟨List.filter_sublist _, rfl,
    ⟨sortStr (globFiles fs (bd ++ "/" ++ n ++ ".d") "conf"),
      sortStr (globFiles fs (bd ++ "/" ++ n ++ ".d") "local"), ?_,
      sortStr_sorted _, sortStr_sorted _, sortStr_perm _, sortStr_perm _⟩, ?_⟩
  · unfold ConfigReaderUnshared.fullCandidates
    simp
  · decide

/-- C4: with an existing base directory, `read` never raises; it returns
true exactly when at least one candidate file was successfully parsed; an
empty candidate list yields false with an error log and no exception; when
at least one file parses, the merged state is the merge of the parsed
subset and the call reports success; a non-empty unreadable subset is
logged as an error. -/
theorem C4_partial_parse (fs : FS) (st : ConfigReaderUnshared) (name : String)
    (h : fs.pathExists st.basedir = true) :
    ∃ st2 ret logs,
      ConfigReaderUnshared.read fs st name = Except.ok (st2, ret, logs)
      ∧ (ret = true ↔
          (parseFiles fs st.merged
            (ConfigReaderUnshared.candidates fs st.basedir name)).2 ≠ [])
      ∧ (ConfigReaderUnshared.candidates fs st.basedir name = [] →
          ret = false ∧ logs = [LogEvent.errorNoAccessible name])
      ∧ ((parseFiles fs st.merged
            (ConfigReaderUnshared.candidates fs st.basedir name)).2 ≠ [] →
          ret = true
          ∧ st2.merged = (parseFiles fs st.merged
              (ConfigReaderUnshared.candidates fs st.basedir name)).1)
      ∧ ((ConfigReaderUnshared.candidates fs st.basedir name).filter
            (fun cf => !(parseFiles fs st.merged
              (ConfigReaderUnshared.candidates fs st.basedir name)).2.contains cf)
            ≠ [] →
          LogEvent.errorCouldNotRead
            ((ConfigReaderUnshared.candidates fs st.basedir name).filter
              (fun cf => !(parseFiles fs st.merged
                (ConfigReaderUnshared.candidates fs st.basedir name)).2.contains cf))
            ∈ logs) := by
  unfold ConfigReaderUnshared.read
  rw [if_pos h]
  simp only [ConfigReaderUnshared.readBody]
  by_cases hC : (ConfigReaderUnshared.candidates fs st.basedir name).isEmpty = true
  · have hc2 : ConfigReaderUnshared.candidates fs st.basedir name = [] := by
      simpa using hC
    rw [if_pos hC]
    refine ⟨st, false, [LogEvent.errorNoAccessible name], rfl, ?_, ?_, ?_, ?_⟩
    · rw [hc2]; simp [parseFiles]
    · intro _; exact ⟨rfl, rfl⟩
    · rw [hc2]; intro hne; exact absurd rfl hne
    · rw [hc2]; intro hne; exact absurd rfl hne
  · rw [if_neg hC]
    by_cases hR : (parseFiles fs st.merged
        (ConfigReaderUnshared.candidates fs st.basedir name)).2.isEmpty = true
    · have hr2 : (parseFiles fs st.merged
          (ConfigReaderUnshared.candidates fs st.basedir name)).2 = [] := by
        simpa using hR
      rw [if_pos hR]
      refine ⟨_, false, _, rfl, ?_, ?_, ?_, ?_⟩
      · simp [hr2]
      · intro hcand
        exact absurd (by rw [hcand]; rfl) hC
      · intro hne; exact absurd hr2 hne
      · intro hne
        rw [if_neg (by simpa using hne)]
        simp
    · have hr2 : (parseFiles fs st.merged
          (ConfigReaderUnshared.candidates fs st.basedir name)).2 ≠ [] := by
        simpa using hR
      rw [if_neg hR]
      refine ⟨_, true, _, rfl, ?_, ?_, ?_, ?_⟩
      · simp [hr2]
      · intro hcand
        exact absurd (by rw [hcand]; rfl) hC
      · intro _; exact ⟨rfl, rfl⟩
      · intro hne
        rw [if_neg (by simpa using hne)]
        simp

/-- Witness for C4 at a concrete input: `/b/n.conf` and `/b/n.local` both
exist but only the first is readable; the read still succeeds. -/
theorem C4_witness :
    exFSpartial.pathExists exStoreB.basedir = true
    ∧ ∃ st2 ret logs,
        ConfigReaderUnshared.read exFSpartial exStoreB "n"
          = Except.ok (st2, ret, logs)
        ∧ (ret = true ↔
            (parseFiles exFSpartial exStoreB.merged
              (ConfigReaderUnshared.candidates exFSpartial exStoreB.basedir "n")).2
              ≠ [])
        ∧ (ConfigReaderUnshared.candidates exFSpartial exStoreB.basedir "n" = [] →
            ret = false ∧ logs = [LogEvent.errorNoAccessible "n"])
        ∧ ((parseFiles exFSpartial exStoreB.merged
              (ConfigReaderUnshared.candidates exFSpartial exStoreB.basedir "n")).2
              ≠ [] →
            ret = true
            ∧ st2.merged = (parseFiles exFSpartial exStoreB.merged
                (ConfigReaderUnshared.candidates exFSpartial exStoreB.basedir "n")).1)
        ∧ ((ConfigReaderUnshared.candidates exFSpartial exStoreB.basedir "n").filter
              (fun cf => !(parseFiles exFSpartial exStoreB.merged
                (ConfigReaderUnshared.candidates exFSpartial exStoreB.basedir "n")).2.contains cf)
              ≠ [] →
            LogEvent.errorCouldNotRead
              ((ConfigReaderUnshared.candidates exFSpartial exStoreB.basedir "n").filter
                (fun cf => !(parseFiles exFSpartial exStoreB.merged
                  (ConfigReaderUnshared.candidates exFSpartial exStoreB.basedir "n")).2.contains cf))
              ∈ logs) :=
  ⟨by decide, C4_partial_parse exFSpartial exStoreB "n" (by decide)⟩

/-- C2 counterexample: the claim's once=false clause fails on the code.  A
first `read("n", once=true)` against a filesystem with no config files
caches `false`; `read("n", once=false)` against a filesystem where
`/b/n.conf` now exists performs a fresh read returning `true`, but — since
the cache is written only when `once` is true — a subsequent
`read("n", once=true)` still returns the stale cached `false`, not the
fresh result the claim promises. -/
theorem C2_counterexample :
    ((ConfigReader.read exFSnone exSig0 (ConfigReader.priv 0) "n" true).bind
      (fun r1 =>
        (ConfigReader.read exFSone r1.1 r1.2.1 "n" false).bind
          (fun r2 =>
            (ConfigReader.read exFSone r2.1 r2.2.1 "n" true).map
              (fun r3 => (r1.2.2.1, r2.2.2.1, r3.2.2.1)))))
      = Except.ok (false, true, false) := by
  decide

/-- C2 (amended): if `once` is true and a previous `read(N, once=true)` on
the active store already completed (whether it returned true or false),
`read(N, once=true)` returns that cached boolean with zero underlying
discovery/parse calls and unchanged state; `read(N, once=false)` always
performs a fresh discovery and merge (one underlying call) but leaves the
store's cached result for N unchanged, so a later `read(N, once=true)`
still sees the old cache. -/
theorem C2_once_cache (fs : FS) (σ : SharedState) (self : ConfigReader)
    (name : String) (sid : Nat) (st : ConfigReaderUnshared)
    (hres : ConfigReader.resolve σ self name = (σ, self, sid))
    (hst : SharedState.findStore σ sid = some st) :
    (∀ r, lookupKV st.read_cfg_files name = some r →
        ConfigReader.read fs σ self name true = Except.ok (σ, self, r, 0))
    ∧ (fs.pathExists st.basedir = true →
        ∃ st2 ret logs,
          ConfigReaderUnshared.read fs st name = Except.ok (st2, ret, logs)
          ∧ ConfigReader.read fs σ self name false
              = Except.ok (SharedState.updateStore σ sid st2, self, ret, 1)
          ∧ st2.read_cfg_files = st.read_cfg_files) := by
  constructor
  · intro r hr
    simp [ConfigReader.read, hres, hst, hr]
  · intro hbd
    have hread : ConfigReaderUnshared.read fs st name
        = Except.ok (ConfigReaderUnshared.readBody fs st name) := by
      unfold ConfigReaderUnshared.read
      rw [if_pos hbd]
    refine ⟨(ConfigReaderUnshared.readBody fs st name).1,
      (ConfigReaderUnshared.readBody fs st name).2.1,
      (ConfigReaderUnshared.readBody fs st name).2.2, hread, ?_, ?_⟩
    · simp [ConfigReader.read, hres, hst, hread]
    · simp only [ConfigReaderUnshared.readBody]
      split
      · rfl
      · split
        · rfl
        · rfl

/-- Witness for C2 (amended) at a concrete input: the store already caches
`true` for "n", and `read("n", once=true)` returns it with zero parses. -/
theorem C2_witness :
    ConfigReader.resolve exSigCached (ConfigReader.priv 0) "n"
        = (exSigCached, ConfigReader.priv 0, 0)
    ∧ SharedState.findStore exSigCached 0 = some exStoreCached
    ∧ ConfigReader.read exFSone exSigCached (ConfigReader.priv 0) "n" true
        = Except.ok (exSigCached, ConfigReader.priv 0, true, 0) :=
  ⟨by decide, by decide,
    (C2_once_cache exFSone exSigCached (ConfigReader.priv 0) "n" 0 exStoreCached
      (by decide) (by decide)).1 true (by decide)⟩

/-- C3: starting from an empty share group, the first `read(N, once=true)`
through a fresh shared facade looks N up in the shared table, constructs
and registers store 0 (the table afterwards maps N to it, one id
allocated), and parses once; a second, independently constructed facade
over the same (now populated) shared state binds to the same store,
returns the same cached boolean with zero underlying parses, and leaves
the shared state unchanged — once-semantics are keyed per
(shared-table, name), not per facade. -/
theorem C3_shared_cache (fs : FS) (bd : Option String) (name : String)
    (h : fs.pathExists (ConfigReaderUnshared.init bd).basedir = true) :
    ∃ σ1 r,
      ConfigReader.read fs SharedState.base (ConfigReader.shared none bd) name true
        = Except.ok (σ1, ConfigReader.shared (some 0) bd, r, 1)
      ∧ σ1.table = [(name, 0)]
      ∧ σ1.nextId = 1
      ∧ ConfigReader.read fs σ1 (ConfigReader.shared none bd) name true
        = Except.ok (σ1, ConfigReader.shared (some 0) bd, r, 0) := by
  have hread : ConfigReaderUnshared.read fs (ConfigReaderUnshared.init bd) name
      = Except.ok (ConfigReaderUnshared.readBody fs (ConfigReaderUnshared.init bd) name) := by
    unfold ConfigReaderUnshared.read
    rw [if_pos h]
  refine ⟨SharedState.mk
      [(0, ConfigReaderUnshared.mk
        (ConfigReaderUnshared.readBody fs (ConfigReaderUnshared.init bd) name).1.basedir
        (insertKV
          (ConfigReaderUnshared.readBody fs (ConfigReaderUnshared.init bd) name).1.read_cfg_files
          name
          (ConfigReaderUnshared.readBody fs (ConfigReaderUnshared.init bd) name).2.1)
        (ConfigReaderUnshared.readBody fs (ConfigReaderUnshared.init bd) name).1.merged)]
      [(name, 0)] 1,
    (ConfigReaderUnshared.readBody fs (ConfigReaderUnshared.init bd) name).2.1,
    ?_, rfl, rfl, ?_⟩
  · have hread2 : ConfigReaderUnshared.read fs
        (ConfigReaderUnshared.mk
          (rstripSlash (bd.getD ConfigReaderUnshared.DEFAULT_BASEDIR)) [] []) name
        = Except.ok (ConfigReaderUnshared.readBody fs
            (ConfigReaderUnshared.mk
              (rstripSlash (bd.getD ConfigReaderUnshared.DEFAULT_BASEDIR)) [] []) name) :=
      hread
    simp only [ConfigReader.read, ConfigReader.resolve, SharedState.base,
      SharedState.findStore, SharedState.updateStore, hread]
    simp [ConfigReaderUnshared.init, ConfigReaderUnshared.setBaseDir, lookupKV, hread2]
  · simp only [ConfigReader.read, ConfigReader.resolve, SharedState.findStore]
    simp [lookupKV_insertKV_self]

/-- Witness for C3 at a concrete input: base directory `/b` exists, so the
two facade reads go through. -/
theorem C3_witness :
    exFSone.pathExists (ConfigReaderUnshared.init (some "/b")).basedir = true
    ∧ ∃ σ1 r,
        ConfigReader.read exFSone SharedState.base
            (ConfigReader.shared none (some "/b")) "n" true
          = Except.ok (σ1, ConfigReader.shared (some 0) (some "/b"), r, 1)
        ∧ σ1.table = [("n", 0)]
        ∧ σ1.nextId = 1
        ∧ ConfigReader.read exFSone σ1
            (ConfigReader.shared none (some "/b")) "n" true
          = Except.ok (σ1, ConfigReader.shared (some 0) (some "/b"), r, 0) :=
  ⟨by decide, C3_shared_cache exFSone (some "/b") "n" (by decide)⟩
